import Mathlib

/-!
A shallow embedding of the content-rotation and caching logic of the
turing-smart-screen-python fork: the RSS feed source cache
(library/sensors/sensors_rss.py, class Feed) and the weather and RSS
rotation widgets (library/stats.py, classes Weather and Rss).

Timestamps are modelled in whole seconds as naturals (so the sub-second
animation alpha int(now mod 1 * 256) is 0); fetching, parsing and
rendering are modelled by oracle arguments (an Option value, none meaning
the call raised); drawable images are an abstract inductive type.
-/

namespace TuringScreen

/-- One parsed RSS entry, as Feed._update builds it from a feedparser
entry (title, link, published, summary). -/
structure RssItem where
  title : String
  link : String
  published : String
  summary : String
  deriving Repr, DecidableEq

/-- The mutable state of one library.sensors.sensors_rss.Feed instance:
the constructor arguments together with the stored item list (_feeds),
the in-flight flag (_updating) and the last-update timestamp (_updated). -/
structure FeedState where
  url : String
  title : String
  limit : Nat
  feeds : List RssItem
  updating : Bool
  updated : Nat
  deriving Repr, DecidableEq

/-- One feedparser entry as the building loop of Feed._update sees it:
entry.title and entry.link are plain attribute accesses that raise
AttributeError when the attribute is missing (modelled by none), while
published and summary are read with getattr defaults and always
succeed. -/
structure RawEntry where
  title : Option String
  link : Option String
  published : String
  summary : String
  deriving Repr, DecidableEq

/-- The entry-building loop of Feed._update (sensors_rss.py lines 52-60):
each entry contributes its title, link, published and summary; an entry
whose title or link attribute is missing raises, and no handler covers
the loop. -/
def buildItems : List RawEntry → Except Unit (List RssItem)
  | [] => Except.ok []
  | e :: rest =>
    match e.title, e.link with
    | some t, some l =>
      match buildItems rest with
      | Except.ok items => Except.ok (⟨t, l, e.published, e.summary⟩ :: items)
      | Except.error u => Except.error u
    | _, _ => Except.error ()

namespace Feed

/-- Feed.__init__: url, title (defaulted to url when empty) and limit are
stored, _feeds starts empty, _updating false, _updated 0; then the
on-disk side cache file .cache/rss/(title).json is consulted.  sideCache
models the file system: none when the file does not exist,
some (Except.error ()) when it exists but open or json.load raises,
some (Except.ok items) when it exists and parses, with mtime its
modification time.  The Python code wraps neither open nor json.load in a
try/except, so a raising load propagates out of __init__, modelled by the
Except.error result.  (The trailing self.get_items() call reads the state
and possibly spawns a refresh thread; it mutates nothing synchronously.) -/
def init (url title : String) (limit : Nat)
    (sideCache : Option (Except Unit (List RssItem))) (mtime : Nat) :
    Except Unit FeedState :=
  let t := if title == "" then url else title
  match sideCache with
  | none => Except.ok ⟨url, t, limit, [], false, 0⟩
  | some (Except.error _) => Except.error ()
  | some (Except.ok items) => Except.ok ⟨url, t, limit, items, false, mtime⟩

/-- Feed.get_items: returns _feeds[:limit]; when now - _updated > 1800 it
also starts a background update thread.  The synchronous path mutates
nothing, so the state component of the result is the input state; the
Bool records whether a refresh thread was spawned. -/
def get_items (s : FeedState) (now : Nat) :
    List RssItem × FeedState × Bool :=
  (s.feeds.take s.limit, s, decide ((now : Int) - (s.updated : Int) > 1800))

/-- Feed._update: skipped (returns False, nothing changed) when _updating
is already set; otherwise _updating is set and the feed is fetched.  The
try/except covers only the feedparser.parse call: parsed = none models it
raising — caught, logged, _updating cleared, False returned, _feeds and
_updated untouched.  The entry-building loop runs outside the try, so a
missing title or link attribute raises out of the update thread with
_updating left true and no return value, modelled by the result none.
On success the item list and timestamp are replaced, _updating cleared
and True returned.  (A failing side-cache write is caught separately and
does not affect this state.) -/
def update (s : FeedState) (now : Nat) (parsed : Option (List RawEntry)) :
    Option Bool × FeedState :=
  if s.updating then
    (some false, s)
  else
    match parsed with
    | none => (some false, { s with updating := false })
    | some entries =>
      match buildItems entries with
      | Except.error _ => (none, { s with updating := true })
      | Except.ok items =>
        (some true, { s with feeds := items, updated := now, updating := false })

end Feed

/-- A sample feed state used by concrete witnesses. -/
def sampleItem : RssItem := ⟨"t1", "l1", "p1", "s1"⟩

/-- A sample idle feed state used by concrete witnesses. -/
def sampleFeed : FeedState :=
  ⟨"http://example/feed", "example", 10, [sampleItem], false, 100⟩

/-- A sample feed state with a refresh in flight. -/
def busyFeed : FeedState := { sampleFeed with updating := true }

/-- A parsed feed whose single entry lacks the title attribute, so the
building loop of Feed._update raises on it. -/
def badRaw : List RawEntry := [⟨none, some "l1", "p1", "s1"⟩]

/-- Drawable images are abstract: img n is an artifact produced by an
api/draw call (tagged by the oracle), text s is a DisplayText rendering,
and composite base overlay alpha is the alpha-blended paste built by the
animation branch (base = the previous image, overlay = the new one). -/
inductive Image where
  | img : Nat → Image
  | text : String → Image
  | composite : Image → Image → Nat → Image
  deriving Repr, DecidableEq

/-- One entry of Weather.cache under the images key: the rendered image
and the bucketed timestamp. -/
structure CacheEntry where
  image : Image
  time : Nat
  deriving Repr, DecidableEq

/-- One element of Weather.IMAGES_LIST: the cache key and the optional
cache_seconds override (none means the default 1800 applies).  The api
and draw method names only select the oracle call, so they are omitted. -/
structure ImageData where
  key : String
  cache_seconds : Option Nat
  deriving Repr, DecidableEq

/-- Weather.IMAGES_LIST from library/stats.py. -/
def IMAGES_LIST : List ImageData :=
  [⟨"current_weather", some 600⟩,
   ⟨"hourly_forecast", none⟩,
   ⟨"daily_forecast", some 21600⟩,
   ⟨"warning", none⟩,
   ⟨"air_quality", none⟩,
   ⟨"precipitation", some 600⟩]

/-- The configuration Weather.stats reads: the theme GRAPH section's
SHOW, DURATION (default 10) and ANIMATION values, and the custom WEATHER
section's KEY and PUBLICID (an empty string models a missing or empty
value, which is falsy in the Python validation). -/
structure WeatherConfig where
  showGraph : Bool
  key : String
  publicid : String
  duration : Int
  animation : Bool
  deriving Repr, DecidableEq

/-- Weather.cache: empty before the first call; hidden models the cache
holding show = False; active carries the images dictionary as an
association list together with last_index (initially -1) and
last_image. -/
inductive WeatherState where
  | empty
  | hidden
  | active (images : List (String × CacheEntry)) (lastIndex : Int)
      (lastImage : Option Image)
  deriving Repr, DecidableEq

/-- Dictionary lookup in the images association list. -/
def lookupImg (images : List (String × CacheEntry)) (k : String) :
    Option CacheEntry :=
  match images with
  | [] => none
  | (k2, e) :: rest => if k2 == k then some e else lookupImg rest k

/-- Dictionary assignment: store e under k, replacing any previous
binding. -/
def insertImg (images : List (String × CacheEntry)) (k : String)
    (e : CacheEntry) : List (String × CacheEntry) :=
  match images with
  | [] => [(k, e)]
  | (k2, e2) :: rest =>
    if k2 == k then (k2, e) :: rest else (k2, e2) :: insertImg rest k e

/-- The effective slot duration max(2, DURATION); always at least 2, so
it is returned as a natural. -/
def slotDuration (d : Int) : Nat := (max 2 d).toNat

/-- The rotation clock of Weather.stats line 934 (and, with the offset
subtracted, of Rss.stats line 1012): int(now) // duration mod itemCount
with duration clamped to at least 2. -/
def activeIndex (now : Nat) (d : Int) (n : Nat) : Nat :=
  now / slotDuration d % n

/-- The bucketed render timestamp now // cache_seconds * cache_seconds of
Weather.stats line 944. -/
def bucketTime (now cs : Nat) : Nat := now / cs * cs

/-- The staleness test of Weather.stats line 938: refresh when the key is
absent from the images dictionary or now - storedTime > cache_seconds. -/
def cacheMiss (entry : Option CacheEntry) (now cs : Nat) : Bool :=
  match entry with
  | none => true
  | some e => decide ((now : Int) - (e.time : Int) > (cs : Int))

/-- Weather.stats lines 938-950: on a miss the api and draw calls run
(fetchRender = none models either call raising; the exception is caught
and logged and nothing is stored) and on success the image is stored
under k with the bucketed timestamp.  The Bool reports whether a fetch
was attempted. -/
def refreshImages (images : List (String × CacheEntry)) (k : String)
    (cs now : Nat) (fetchRender : Option Image) :
    List (String × CacheEntry) × Bool :=
  if cacheMiss (lookupImg images k) now cs then
    match fetchRender with
    | some i => (insertImg images k ⟨i, bucketTime now cs⟩, true)
    | none => (images, true)
  else
    (images, false)

/-- Observable outcome of one Weather.stats call: the cache state
afterwards (including mutations made before an uncaught exception), the
DisplayPILImage draws emitted, whether a fetch was attempted, the
computed slot index (none when the call returned before computing one),
and whether an uncaught exception — the KeyError of line 955 when the
active slot has no stored image — escaped the call. -/
structure WeatherTick where
  state : WeatherState
  draws : List Image
  fetched : Bool
  index : Option Nat
  errored : Bool
  deriving Repr, DecidableEq

/-- Weather.stats lines 931-965: the rotation body run when show is True.
The index is computed from the clock, the active slot's image is
refreshed when stale, and a changed index draws: the animation branch
(ANIMATION set, int(now) mod duration = 0, a previous image exists)
emits the composite without committing last_index; otherwise the plain
image is drawn and last_index and last_image are updated.  With now in
whole seconds the alpha int(now mod 1 * 256) is 0. -/
def weatherBody (cfg : WeatherConfig) (images : List (String × CacheEntry))
    (lastIndex : Int) (lastImage : Option Image) (now : Nat)
    (fetchRender : Option Image) : WeatherTick :=
  let dur := slotDuration cfg.duration
  let index := activeIndex now cfg.duration IMAGES_LIST.length
  let idata := IMAGES_LIST.getD index ⟨"", none⟩
  let cs := idata.cache_seconds.getD 1800
  let rf := refreshImages images idata.key cs now fetchRender
  if (index : Int) = lastIndex then
    ⟨.active rf.1 lastIndex lastImage, [], rf.2, some index, false⟩
  else
    match lookupImg rf.1 idata.key with
    | none => ⟨.active rf.1 lastIndex lastImage, [], rf.2, some index, true⟩
    | some e =>
      match lastImage with
      | some li =>
        if cfg.animation && now % dur == 0 then
          ⟨.active rf.1 lastIndex lastImage,
           [Image.composite li e.image 0], rf.2, some index, false⟩
        else
          ⟨.active rf.1 (index : Int) (some e.image), [e.image], rf.2,
           some index, false⟩
      | none =>
        ⟨.active rf.1 (index : Int) (some e.image), [e.image], rf.2,
         some index, false⟩

/-- One call of Weather.stats.  On the first call the configuration is
validated: when the GRAPH area is not shown, or KEY or PUBLICID is
missing, the cache records show = False and the call returns; otherwise
the cache is initialized (empty images, last_index -1, no last_image)
and the rotation body runs in the same call.  Later calls return
immediately when show is False. -/
def weatherTick (cfg : WeatherConfig) (s : WeatherState) (now : Nat)
    (fetchRender : Option Image) : WeatherTick :=
  match s with
  | .empty =>
    if !cfg.showGraph || cfg.key == "" || cfg.publicid == "" then
      ⟨.hidden, [], false, none, false⟩
    else
      weatherBody cfg [] (-1) none now fetchRender
  | .hidden => ⟨.hidden, [], false, none, false⟩
  | .active images li limg => weatherBody cfg images li limg now fetchRender

/-- The configuration Rss.stats reads: the theme TEXT section's SHOW,
DURATION (default 10, converted with int) and ANIMATION values, and the
number of configured feeds in the custom RSS list (the validation only
tests the list for emptiness; each tick's flattened get_items output is
supplied by the rebuilt oracle). -/
structure RssConfig where
  showText : Bool
  feedCount : Nat
  duration : Int
  animation : Bool
  deriving Repr, DecidableEq

/-- Rss.cache: empty before the first call; hidden models show = False;
active carries item_list, last_index (initially -1), last_image and
offset (initially 0). -/
inductive RssState where
  | empty
  | hidden
  | active (itemList : List String) (lastIndex : Int)
      (lastImage : Option Image) (off : Int)
  deriving Repr, DecidableEq

/-- Observable outcome of one Rss.stats call: the cache state afterwards,
the draws emitted (DisplayText via display_themed_value, and the
composite DisplayPILImage of the animation branch), and the computed item
index (none when the call returned before computing one). -/
structure RssTick where
  state : RssState
  draws : List Image
  index : Option Nat
  deriving Repr, DecidableEq

/-- The Rss item index of Rss.stats line 1012: 0 when the item list is
empty, otherwise (int(now) // duration - offset) mod len(item_list)
(Python mod, so non-negative), with duration clamped to at least 2. -/
def rssIndex (itemList : List String) (off : Int) (d : Int) (now : Nat) :
    Nat :=
  if itemList.isEmpty then 0
  else ((((now / slotDuration d : Nat) : Int) - off).emod
    (itemList.length : Int)).toNat

/-- Rss.stats lines 1007-1039: the rotation body run when show is True.
rebuilt is the item list that flattening the feeds' get_items results
would produce on this call (each feed title followed by its item titles).
The index is (int(now) // duration - offset) mod len(item_list), taken as
0 when the list is empty; at index 0 the list is rebuilt and offset is
set to int(now) // duration; an empty (rebuilt) list ends the call.  A
changed index renders and draws the text, and the animation branch
additionally draws the composite without committing last_index; otherwise
last_index and last_image are updated (the plain branch emits no further
draw: display_themed_value already painted the text). -/
def rssBody (cfg : RssConfig) (itemList : List String) (lastIndex : Int)
    (lastImage : Option Image) (off : Int) (now : Nat)
    (rebuilt : List String) : RssTick :=
  let dur := slotDuration cfg.duration
  let slot : Int := ((now / dur : Nat) : Int)
  let index : Nat := rssIndex itemList off cfg.duration now
  let itemList2 := if index == 0 then rebuilt else itemList
  let off2 := if index == 0 then slot else off
  if itemList2.isEmpty then
    ⟨.active itemList2 lastIndex lastImage off2, [], some index⟩
  else
    let image := Image.text (itemList2.getD index "")
    if (index : Int) = lastIndex then
      ⟨.active itemList2 lastIndex lastImage off2, [], some index⟩
    else
      match lastImage with
      | some li =>
        if cfg.animation && now % dur == 0 then
          ⟨.active itemList2 lastIndex lastImage off2,
           [image, Image.composite li image 0], some index⟩
        else
          ⟨.active itemList2 (index : Int) (some image) off2, [image],
           some index⟩
      | none =>
        ⟨.active itemList2 (index : Int) (some image) off2, [image],
         some index⟩

/-- One call of Rss.stats.  On the first call the configuration is
validated: when the TEXT area is not shown or the feed list is empty the
cache records show = False and the call returns; otherwise a loading
banner is drawn, the Feed objects are built, the cache is initialized
(empty item_list, last_index -1, no last_image, offset 0) and the
rotation body runs in the same call.  Later calls return immediately when
show is False. -/
def rssTick (cfg : RssConfig) (s : RssState) (now : Nat)
    (rebuilt : List String) : RssTick :=
  match s with
  | .empty =>
    if !cfg.showText || cfg.feedCount == 0 then
      ⟨.hidden, [], none⟩
    else
      let r := rssBody cfg [] (-1) none 0 now rebuilt
      ⟨r.state, Image.text "loading-banner" :: r.draws, r.index⟩
  | .hidden => ⟨.hidden, [], none⟩
  | .active il li limg off => rssBody cfg il li limg off now rebuilt

/-- A valid weather configuration (animation disabled) used by concrete
instances. -/
def plainWeatherCfg : WeatherConfig := ⟨true, "k", "p", 10, false⟩

/-- A valid weather configuration with animation enabled. -/
def animWeatherCfg : WeatherConfig := ⟨true, "k", "p", 10, true⟩

/-- A weather cache state sitting on slot 0 with a fresh cached image for
the slot-4 key and a previous image, used by the C7 counterexample. -/
def animWeatherState : WeatherState :=
  .active [("air_quality", ⟨Image.img 1, 0⟩)] 0 (some (Image.img 0))

/-- An invalid weather configuration: the GRAPH area is not shown. -/
def badWeatherCfg : WeatherConfig := ⟨false, "", "", 10, false⟩

/-- A valid RSS configuration with one feed and animation disabled. -/
def plainRssCfg : RssConfig := ⟨true, 1, 10, false⟩

/-- An invalid RSS configuration: zero feeds configured. -/
def badRssCfg : RssConfig := ⟨true, 0, 10, false⟩

/-- A sample active weather state with an empty images dictionary. -/
def wStateA : WeatherState := .active [] 0 none

/-- A sample active weather state with a cached image and history. -/
def wStateB : WeatherState :=
  .active [("warning", ⟨Image.img 2, 900⟩)] 3 (some (Image.img 2))

theorem lookupImg_insertImg_self (l : List (String × CacheEntry))
    (k : String) (e : CacheEntry) :
    lookupImg (insertImg l k e) k = some e := by
  induction l with
  | nil => simp [insertImg, lookupImg]
  | cons hd tl ih =>
    obtain ⟨k2, e2⟩ := hd
    by_cases hk : k2 == k
    · simp [insertImg, lookupImg, hk]
    · simp only [insertImg, lookupImg, hk, Bool.false_eq_true, if_false, ih]

theorem weatherBody_index_eq (cfg : WeatherConfig)
    (images : List (String × CacheEntry)) (li : Int) (limg : Option Image)
    (now : Nat) (o : Option Image) :
    (weatherBody cfg images li limg now o).index =
      some (activeIndex now cfg.duration IMAGES_LIST.length) := by
  simp only [weatherBody]
  repeat' split
  all_goals rfl

theorem weatherBody_draws_length (cfg : WeatherConfig)
    (images : List (String × CacheEntry)) (li : Int) (limg : Option Image)
    (now : Nat) (o : Option Image) :
    (weatherBody cfg images li limg now o).draws.length ≤ 1 := by
  simp only [weatherBody]
  repeat' split
  all_goals simp

theorem weatherBody_same_slot (cfg : WeatherConfig)
    (images : List (String × CacheEntry)) (li : Int) (limg : Option Image)
    (now : Nat) (o : Option Image)
    (h : li = ((activeIndex now cfg.duration IMAGES_LIST.length : Nat) : Int)) :
    ∃ imgs2 f, weatherBody cfg images li limg now o =
      ⟨.active imgs2 li limg, [], f,
       some (activeIndex now cfg.duration IMAGES_LIST.length), false⟩ := by
  subst h
  simp only [weatherBody, if_true]
  exact ⟨_, _, rfl⟩

theorem weatherBody_not_anim_cases (cfg : WeatherConfig)
    (images : List (String × CacheEntry)) (li : Int) (limg : Option Image)
    (now : Nat) (o : Option Image) (hanim : cfg.animation = false) :
    (∃ imgs2 f b, weatherBody cfg images li limg now o =
        ⟨.active imgs2 li limg, [], f,
         some (activeIndex now cfg.duration IMAGES_LIST.length), b⟩) ∨
    (∃ imgs2 f e, weatherBody cfg images li limg now o =
        ⟨.active imgs2 ((activeIndex now cfg.duration IMAGES_LIST.length : Nat) : Int)
           (some e), [e], f,
         some (activeIndex now cfg.duration IMAGES_LIST.length), false⟩) := by
  simp only [weatherBody, hanim, Bool.false_and, cond_false]
  split
  · exact Or.inl ⟨_, _, false, rfl⟩
  · split
    · exact Or.inl ⟨_, _, true, rfl⟩
    · split
      · split
        · simp_all
        · exact Or.inr ⟨_, _, _, rfl⟩
      · exact Or.inr ⟨_, _, _, rfl⟩

theorem weatherTick_empty_valid (cfg : WeatherConfig) (now : Nat)
    (o : Option Image)
    (h : (!cfg.showGraph || cfg.key == "" || cfg.publicid == "") = false) :
    weatherTick cfg .empty now o = weatherBody cfg [] (-1) none now o := by
  simp [weatherTick, h]

theorem weatherTick_empty_invalid (cfg : WeatherConfig) (now : Nat)
    (o : Option Image)
    (h : (!cfg.showGraph || cfg.key == "" || cfg.publicid == "") = true) :
    weatherTick cfg .empty now o = ⟨.hidden, [], false, none, false⟩ := by
  simp [weatherTick, h]

theorem weatherTick_index_cases (cfg : WeatherConfig) (s : WeatherState)
    (now : Nat) (o : Option Image) :
    (weatherTick cfg s now o).index = none ∨
    (weatherTick cfg s now o).index =
      some (activeIndex now cfg.duration IMAGES_LIST.length) := by
  cases s with
  | empty =>
    simp only [weatherTick]
    split
    · exact Or.inl rfl
    · exact Or.inr (weatherBody_index_eq ..)
  | hidden => exact Or.inl rfl
  | active images li limg => exact Or.inr (weatherBody_index_eq ..)

theorem weatherBody_two_ticks (cfg : WeatherConfig)
    (images : List (String × CacheEntry)) (li : Int) (limg : Option Image)
    (n1 n2 : Nat) (o1 o2 : Option Image) (hanim : cfg.animation = false)
    (hidx : (weatherBody cfg images li limg n1 o1).index =
      (weatherTick cfg (weatherBody cfg images li limg n1 o1).state n2 o2).index) :
    (weatherBody cfg images li limg n1 o1).draws.length +
      (weatherTick cfg (weatherBody cfg images li limg n1 o1).state n2 o2).draws.length ≤ 1 := by
  rcases weatherBody_not_anim_cases cfg images li limg n1 o1 hanim with
    ⟨imgs2, f, b, heq⟩ | ⟨imgs2, f, e, heq⟩
  · rw [heq]
    simpa [weatherTick] using weatherBody_draws_length cfg imgs2 li limg n2 o2
  · rw [heq] at hidx ⊢
    simp only [weatherTick] at hidx ⊢
    rw [weatherBody_index_eq] at hidx
    have h2 : activeIndex n1 cfg.duration IMAGES_LIST.length =
        activeIndex n2 cfg.duration IMAGES_LIST.length := by
      injection hidx
    obtain ⟨imgs3, f3, heq3⟩ :=
      weatherBody_same_slot cfg imgs2
        ((activeIndex n1 cfg.duration IMAGES_LIST.length : Nat) : Int)
        (some e) n2 o2 (by rw [h2])
    rw [heq3]
    simp

theorem rssBody_index_eq (cfg : RssConfig) (il : List String) (li : Int)
    (limg : Option Image) (off : Int) (now : Nat) (reb : List String) :
    (rssBody cfg il li limg off now reb).index =
      some (rssIndex il off cfg.duration now) := by
  simp only [rssBody]
  repeat' split
  all_goals rfl

theorem rssBody_draws_le_one (cfg : RssConfig) (il : List String) (li : Int)
    (limg : Option Image) (off : Int) (now : Nat) (reb : List String)
    (hanim : cfg.animation = false) :
    (rssBody cfg il li limg off now reb).draws.length ≤ 1 := by
  simp only [rssBody, hanim, Bool.false_and]
  repeat' split
  all_goals simp_all

theorem rssBody_same_slot (cfg : RssConfig) (il : List String) (li : Int)
    (limg : Option Image) (off : Int) (now : Nat) (reb : List String)
    (h : li = ((rssIndex il off cfg.duration now : Nat) : Int)) :
    ∃ il2 off2, rssBody cfg il li limg off now reb =
      ⟨.active il2 li limg off2, [],
       some (rssIndex il off cfg.duration now)⟩ := by
  subst h
  simp only [rssBody, if_true, ite_self]
  repeat' split
  all_goals exact ⟨_, _, rfl⟩

theorem rssBody_not_anim_cases (cfg : RssConfig) (il : List String)
    (li : Int) (limg : Option Image) (off : Int) (now : Nat)
    (reb : List String) (hanim : cfg.animation = false) :
    (∃ il2 off2, rssBody cfg il li limg off now reb =
        ⟨.active il2 li limg off2, [],
         some (rssIndex il off cfg.duration now)⟩) ∨
    (∃ il2 off2 img, rssBody cfg il li limg off now reb =
        ⟨.active il2 ((rssIndex il off cfg.duration now : Nat) : Int)
           (some img) off2, [img],
         some (rssIndex il off cfg.duration now)⟩) := by
  simp only [rssBody, hanim, Bool.false_and]
  repeat' split
  all_goals first
  | exact Or.inl ⟨_, _, rfl⟩
  | exact Or.inr ⟨_, _, _, rfl⟩
  | simp_all

theorem rssBody_two_ticks (cfg : RssConfig) (il : List String) (li : Int)
    (limg : Option Image) (off : Int) (n1 n2 : Nat)
    (reb1 reb2 : List String) (hanim : cfg.animation = false)
    (hidx : (rssBody cfg il li limg off n1 reb1).index =
      (rssTick cfg (rssBody cfg il li limg off n1 reb1).state n2 reb2).index) :
    (rssBody cfg il li limg off n1 reb1).draws.length +
      (rssTick cfg (rssBody cfg il li limg off n1 reb1).state n2 reb2).draws.length
        ≤ 1 := by
  rcases rssBody_not_anim_cases cfg il li limg off n1 reb1 hanim with
    ⟨il2, off2, heq⟩ | ⟨il2, off2, img, heq⟩
  · rw [heq]
    simpa [rssTick] using rssBody_draws_le_one cfg il2 li limg off2 n2 reb2 hanim
  · rw [heq] at hidx ⊢
    simp only [rssTick] at hidx ⊢
    rw [rssBody_index_eq] at hidx
    have h2 : rssIndex il off cfg.duration n1 =
        rssIndex il2 off2 cfg.duration n2 := by
      injection hidx
    obtain ⟨il3, off3, heq3⟩ :=
      rssBody_same_slot cfg il2
        ((rssIndex il off cfg.duration n1 : Nat) : Int) (some img) off2 n2
        reb2 (by rw [h2])
    rw [heq3]
    simp

/-- C3 counterexample: a refresh attempt whose failure is raised by the
entry-building loop (an entry lacking its title attribute) rather than by
the guarded feedparser.parse call leaves the updating flag stuck true and
reports no failure result at all (the exception escapes the update
thread), refuting the claim that every failed refresh clears the
refreshing flag and reports failure.  The stored items and timestamp are
still unchanged. -/
theorem c3_loop_raise_keeps_flag :
    sampleFeed.updating = false ∧
    (Feed.update sampleFeed 2000 (some badRaw)).2.updating = true ∧
    (Feed.update sampleFeed 2000 (some badRaw)).1 = none ∧
    (Feed.update sampleFeed 2000 (some badRaw)).2.feeds = sampleFeed.feeds ∧
    (Feed.update sampleFeed 2000 (some badRaw)).2.updated =
      sampleFeed.updated :=
  ⟨rfl, rfl, rfl, rfl, rfl⟩

/-- C3 amended: when the guarded fetch/parse call (feedparser.parse)
raises, the stored items and last-fetched timestamp are left exactly as
they were, the updating flag is cleared, failure (False) is reported, and
a subsequent read returns the unchanged prior items; but when the raise
occurs in the entry-building loop after a successful parse (an entry
missing its title or link attribute), the exception escapes the update
thread: the items and timestamp are still unchanged, yet the updating
flag is left stuck true and no failure is reported. -/
theorem c3_failed_refresh_paths (s : FeedState) (now now2 : Nat)
    (raw : List RawEntry) (h : s.updating = false) :
    ((Feed.update s now none).1 = some false ∧
     (Feed.update s now none).2.feeds = s.feeds ∧
     (Feed.update s now none).2.updated = s.updated ∧
     (Feed.update s now none).2.updating = false ∧
     (Feed.get_items (Feed.update s now none).2 now2).1 =
       (Feed.get_items s now2).1) ∧
    (buildItems raw = Except.error () →
      (Feed.update s now (some raw)).1 = none ∧
      (Feed.update s now (some raw)).2.feeds = s.feeds ∧
      (Feed.update s now (some raw)).2.updated = s.updated ∧
      (Feed.update s now (some raw)).2.updating = true) := by
  constructor
  · simp [Feed.update, Feed.get_items, h]
  · intro hb
    simp [Feed.update, h, hb]

/-- Witness for C3 at a concrete feed state and a concrete feed whose
entry-building raises. -/
theorem c3_failed_refresh_paths_w :
    sampleFeed.updating = false ∧
    (((Feed.update sampleFeed 2000 none).1 = some false ∧
      (Feed.update sampleFeed 2000 none).2.feeds = sampleFeed.feeds ∧
      (Feed.update sampleFeed 2000 none).2.updated = sampleFeed.updated ∧
      (Feed.update sampleFeed 2000 none).2.updating = false ∧
      (Feed.get_items (Feed.update sampleFeed 2000 none).2 2001).1 =
        (Feed.get_items sampleFeed 2001).1) ∧
     (buildItems badRaw = Except.error () →
      (Feed.update sampleFeed 2000 (some badRaw)).1 = none ∧
      (Feed.update sampleFeed 2000 (some badRaw)).2.feeds =
        sampleFeed.feeds ∧
      (Feed.update sampleFeed 2000 (some badRaw)).2.updated =
        sampleFeed.updated ∧
      (Feed.update sampleFeed 2000 (some badRaw)).2.updating = true)) :=
  ⟨rfl, c3_failed_refresh_paths sampleFeed 2000 2001 badRaw rfl⟩

/-- C6: a refresh requested while one is already in flight is a no-op: it
returns False and leaves the whole feed state (items, timestamp and the
updating flag) unchanged. -/
theorem c6_refresh_in_flight_noop (s : FeedState) (now : Nat)
    (parsed : Option (List RawEntry)) (h : s.updating = true) :
    Feed.update s now parsed = (some false, s) := by
  simp [Feed.update, h]

/-- Witness for C6 at a concrete busy feed state. -/
theorem c6_refresh_in_flight_noop_w :
    busyFeed.updating = true ∧
    Feed.update busyFeed 5 (some []) = (some false, busyFeed) :=
  ⟨rfl, c6_refresh_in_flight_noop busyFeed 5 (some []) rfl⟩

/-- C4 counterexample: constructing a Feed whose side-cache file exists
but is corrupt propagates the load error out of initialization
(Except.error), whereas with no side-cache file present construction
succeeds; a corrupt side-cache is therefore not treated like an absent
one. -/
theorem c4_corrupt_cache_raises :
    Feed.init "http://example/feed" "example" 10 (some (Except.error ())) 7 =
      Except.error () ∧
    Feed.init "http://example/feed" "example" 10 none 7 =
      Except.ok ⟨"http://example/feed", "example", 10, [], false, 0⟩ :=
  ⟨rfl, rfl⟩

/-- C4 amended: an absent side-cache file is non-fatal (the feed starts
unseeded) and a readable side-cache seeds the item list with the file
modification time as timestamp; but a corrupt or unreadable side-cache
file makes initialization fail — the open/parse error propagates out of
Feed.__init__ instead of being treated as no seed. -/
theorem c4_side_cache_seeding (url title : String) (limit mtime : Nat)
    (items : List RssItem) :
    Feed.init url title limit none mtime =
      Except.ok ⟨url, if title == "" then url else title,
                 limit, [], false, 0⟩ ∧
    Feed.init url title limit (some (Except.ok items)) mtime =
      Except.ok ⟨url, if title == "" then url else title,
                 limit, items, false, mtime⟩ ∧
    Feed.init url title limit (some (Except.error ())) mtime =
      Except.error () :=
  ⟨rfl, rfl, rfl⟩

/-- C10: Feed.get_items returns exactly the first
min(limit, stored length) stored entries in stored order — the take of
the stored list — and the synchronous read leaves the feed state (stored
list and timestamp) unchanged; the background refresh it may spawn
(recorded in the Bool component) happens outside this path. -/
theorem c10_get_items_take (s : FeedState) (now : Nat) :
    (Feed.get_items s now).1 = s.feeds.take s.limit ∧
    (Feed.get_items s now).1.length = min s.limit s.feeds.length ∧
    (∀ i : Nat, i < s.limit →
      (Feed.get_items s now).1[i]? = s.feeds[i]?) ∧
    (Feed.get_items s now).2.1 = s := by
  refine ⟨rfl, ?_, ?_, rfl⟩
  · simp [Feed.get_items]
  · intro i hi
    simp [Feed.get_items, List.getElem?_take, hi]

/-- Witness for C10 at a concrete feed state. -/
theorem c10_get_items_take_w :
    (Feed.get_items sampleFeed 0).1 = sampleFeed.feeds.take sampleFeed.limit ∧
    (Feed.get_items sampleFeed 0).1.length =
      min sampleFeed.limit sampleFeed.feeds.length ∧
    (∀ i : Nat, i < sampleFeed.limit →
      (Feed.get_items sampleFeed 0).1[i]? = sampleFeed.feeds[i]?) ∧
    (Feed.get_items sampleFeed 0).2.1 = sampleFeed :=
  c10_get_items_take sampleFeed 0

/-- C1: with effective slot duration max(2, DURATION) and at least one
item, the rotation clock computes floor(now / duration) mod itemCount,
which lies in [0, itemCount); Weather.stats computes exactly this index
on every active tick, and with duration 10, 3 items and now = 1000 the
index is 1. -/
theorem c1_rotation_clock_index (now : Nat) (d : Int) (n : Nat)
    (hn : 1 ≤ n) (cfg : WeatherConfig)
    (images : List (String × CacheEntry)) (li : Int) (limg : Option Image)
    (o : Option Image) :
    activeIndex now d n = now / (max 2 d).toNat % n ∧
    activeIndex now d n < n ∧
    (weatherTick cfg (.active images li limg) now o).index =
      some (activeIndex now cfg.duration IMAGES_LIST.length) ∧
    activeIndex 1000 10 3 = 1 :=
  ⟨rfl, Nat.mod_lt _ (by omega), weatherBody_index_eq .., by decide⟩

/-- Witness for C1 at duration 10, 3 items, now 1000. -/
theorem c1_rotation_clock_index_w :
    1 ≤ 3 ∧
    (activeIndex 1000 10 3 = 1000 / (max 2 (10 : Int)).toNat % 3 ∧
     activeIndex 1000 10 3 < 3 ∧
     (weatherTick plainWeatherCfg (.active [] 0 none) 1000 none).index =
       some (activeIndex 1000 plainWeatherCfg.duration IMAGES_LIST.length) ∧
     activeIndex 1000 10 3 = 1) :=
  ⟨by decide,
   c1_rotation_clock_index 1000 10 3 (by decide) plainWeatherCfg [] 0 none none⟩

/-- C2: a render-cache update at time now with TTL cs stores the image
under the bucketed timestamp (now / cs) * cs, not the literal render
time; a probe at time n2 is a cache hit — no fetch attempted, images
dictionary unchanged — exactly when n2 minus the recorded timestamp is at
most cs; and with TTL 600 a render at 1205 records 1200, a probe at 1790
hits and a probe at 1810 misses. -/
theorem c2_render_cache_ttl_buckets
    (images : List (String × CacheEntry)) (k : String) (cs now n2 : Nat)
    (i : Image) (e : CacheEntry) (o : Option Image)
    (hmiss : cacheMiss (lookupImg images k) now cs = true) :
    lookupImg (refreshImages images k cs now (some i)).1 k =
      some ⟨i, bucketTime now cs⟩ ∧
    bucketTime now cs = now / cs * cs ∧
    (cacheMiss (some e) n2 cs = false ↔
      (n2 : Int) - (e.time : Int) ≤ (cs : Int)) ∧
    (cacheMiss (lookupImg images k) n2 cs = false →
      refreshImages images k cs n2 o = (images, false)) ∧
    bucketTime 1205 600 = 1200 ∧
    cacheMiss (some ⟨i, 1200⟩) 1790 600 = false ∧
    cacheMiss (some ⟨i, 1200⟩) 1810 600 = true := by
  refine ⟨?_, rfl, ?_, ?_, by decide, rfl, rfl⟩
  · simp [refreshImages, hmiss, lookupImg_insertImg_self]
  · simp [cacheMiss]
  · intro h
    simp [refreshImages, h]

/-- Witness for C2 with TTL 600, a render at 1205 and a probe at 1790. -/
theorem c2_render_cache_ttl_buckets_w :
    cacheMiss (lookupImg [] "current_weather") 1205 600 = true ∧
    (lookupImg (refreshImages [] "current_weather" 600 1205
        (some (Image.img 0))).1 "current_weather" =
      some ⟨Image.img 0, bucketTime 1205 600⟩ ∧
    bucketTime 1205 600 = 1205 / 600 * 600 ∧
    (cacheMiss (some ⟨Image.img 0, 1200⟩) 1790 600 = false ↔
      (1790 : Int) - ((1200 : Nat) : Int) ≤ ((600 : Nat) : Int)) ∧
    (cacheMiss (lookupImg [] "current_weather") 1790 600 = false →
      refreshImages [] "current_weather" 600 1790 none = ([], false)) ∧
    bucketTime 1205 600 = 1200 ∧
    cacheMiss (some ⟨Image.img 0, 1200⟩) 1790 600 = false ∧
    cacheMiss (some ⟨Image.img 0, 1200⟩) 1810 600 = true) :=
  ⟨rfl, c2_render_cache_ttl_buckets [] "current_weather" 600 1205 1790
    (Image.img 0) ⟨Image.img 0, 1200⟩ none rfl⟩

/-- C5: Weather.stats does not skip the tick when the active slot's fetch
raises and no artifact was ever cached for its key: on the first tick
with a valid configuration and a raising api call, the caught fetch
failure is followed by an unguarded images[key] access and the KeyError
escapes the call (errored = true), with no draw emitted and the
mutations made before the raise kept. -/
theorem c5_missing_artifact_key_error :
    weatherTick plainWeatherCfg .empty 0 none =
      ⟨.active [] (-1) none, [], true, some 0, true⟩ :=
  rfl

/-- C7 counterexample: two Weather ticks with animation enabled at
now = 100 both map to slot index 4 yet each emit a composite draw, since
the animation branch never commits last_index; and for the Rss group,
even with animation disabled, the initialization tick and the next tick
at now = 100 both map to item index 0 yet two draws are emitted (the
loading banner and the first item text, both on the first tick).  Either
pair refutes the claim that at most one draw is emitted across two
same-index ticks. -/
theorem c7_two_draws_on_same_slot :
    (weatherTick animWeatherCfg animWeatherState 100 none).index = some 4 ∧
    (weatherTick animWeatherCfg
        (weatherTick animWeatherCfg animWeatherState 100 none).state
        100 none).index = some 4 ∧
    (weatherTick animWeatherCfg animWeatherState 100 none).draws.length +
      (weatherTick animWeatherCfg
        (weatherTick animWeatherCfg animWeatherState 100 none).state
        100 none).draws.length = 2 ∧
    (rssTick plainRssCfg .empty 100 ["a", "b", "c"]).index = some 0 ∧
    (rssTick plainRssCfg
        (rssTick plainRssCfg .empty 100 ["a", "b", "c"]).state
        100 ["a", "b", "c"]).index = some 0 ∧
    (rssTick plainRssCfg .empty 100 ["a", "b", "c"]).draws.length +
      (rssTick plainRssCfg
        (rssTick plainRssCfg .empty 100 ["a", "b", "c"]).state
        100 ["a", "b", "c"]).draws.length = 2 :=
  ⟨rfl, rfl, rfl, rfl, rfl, rfl⟩

/-- C7 amended: in both rotation groups a tick whose computed index
equals the stored last_index never emits a draw (anti-flicker); and with
animation disabled, two consecutive ticks whose now values map to the
same index emit at most one draw between them — for Weather from any
state including the uninitialized one, for Rss from any
already-initialized state.  The exceptions the code exhibits: the Rss
initialization tick additionally draws the loading banner before the
first item text, and with animation enabled an in-progress crossfade can
draw on both ticks (see the counterexample). -/
theorem c7_no_redraw_on_same_slot (cfg : WeatherConfig) (rcfg : RssConfig)
    (s : WeatherState) (rs : RssState)
    (images : List (String × CacheEntry)) (li : Int) (limg : Option Image)
    (il : List String) (rli : Int) (rlimg : Option Image) (off : Int)
    (n1 n2 : Nat) (o1 o2 : Option Image) (reb1 reb2 : List String) :
    (li = ((activeIndex n1 cfg.duration IMAGES_LIST.length : Nat) : Int) →
      (weatherTick cfg (.active images li limg) n1 o1).draws = []) ∧
    (cfg.animation = false →
      (weatherTick cfg s n1 o1).index =
        (weatherTick cfg (weatherTick cfg s n1 o1).state n2 o2).index →
      (weatherTick cfg s n1 o1).draws.length +
        (weatherTick cfg (weatherTick cfg s n1 o1).state n2 o2).draws.length
          ≤ 1) ∧
    (rli = ((rssIndex il off rcfg.duration n1 : Nat) : Int) →
      (rssTick rcfg (.active il rli rlimg off) n1 reb1).draws = []) ∧
    (rcfg.animation = false → rs ≠ RssState.empty →
      (rssTick rcfg rs n1 reb1).index =
        (rssTick rcfg (rssTick rcfg rs n1 reb1).state n2 reb2).index →
      (rssTick rcfg rs n1 reb1).draws.length +
        (rssTick rcfg (rssTick rcfg rs n1 reb1).state n2 reb2).draws.length
          ≤ 1) := by
  refine ⟨?_, ?_, ?_, ?_⟩
  · intro h
    obtain ⟨imgs2, f, heq⟩ := weatherBody_same_slot cfg images li limg n1 o1 h
    show (weatherBody cfg images li limg n1 o1).draws = []
    rw [heq]
  · intro hanim hidx
    cases s with
    | empty =>
      cases hv : (!cfg.showGraph || cfg.key == "" || cfg.publicid == "") with
      | true =>
        rw [weatherTick_empty_invalid cfg n1 o1 hv]
        simp [weatherTick]
      | false =>
        rw [weatherTick_empty_valid cfg n1 o1 hv] at hidx ⊢
        exact weatherBody_two_ticks cfg [] (-1) none n1 n2 o1 o2 hanim hidx
    | hidden =>
      simp [weatherTick]
    | active images2 li2 limg2 =>
      exact weatherBody_two_ticks cfg images2 li2 limg2 n1 n2 o1 o2 hanim hidx
  · intro h
    obtain ⟨il2, off2, heq⟩ := rssBody_same_slot rcfg il rli rlimg off n1 reb1 h
    show (rssBody rcfg il rli rlimg off n1 reb1).draws = []
    rw [heq]
  · intro hanim hne hidx
    cases rs with
    | empty => exact absurd rfl hne
    | hidden => simp [rssTick]
    | active il2 li2 limg2 off2 =>
      exact rssBody_two_ticks rcfg il2 li2 limg2 off2 n1 n2 reb1 reb2 hanim hidx

/-- Witness for C7 at concrete states of both groups: a same-slot tick
emits no draw, and two ticks starting from the hidden state emit no
draws at all. -/
theorem c7_no_redraw_on_same_slot_w :
    (weatherTick plainWeatherCfg (.active [] 0 none) 5 none).draws = [] ∧
    (weatherTick plainWeatherCfg .hidden 5 none).draws.length +
      (weatherTick plainWeatherCfg
        (weatherTick plainWeatherCfg .hidden 5 none).state 6 none).draws.length
        ≤ 1 ∧
    (rssTick plainRssCfg (.active [] 0 none 0) 5 []).draws = [] ∧
    (rssTick plainRssCfg .hidden 5 []).draws.length +
      (rssTick plainRssCfg
        (rssTick plainRssCfg .hidden 5 []).state 6 []).draws.length ≤ 1 :=
  ⟨(c7_no_redraw_on_same_slot plainWeatherCfg plainRssCfg .hidden .hidden
      [] 0 none [] 0 none 0 5 6 none none [] []).1 (by decide),
   (c7_no_redraw_on_same_slot plainWeatherCfg plainRssCfg .hidden .hidden
      [] 0 none [] 0 none 0 5 6 none none [] []).2.1 rfl rfl,
   (c7_no_redraw_on_same_slot plainWeatherCfg plainRssCfg .hidden .hidden
      [] 0 none [] 0 none 0 5 6 none none [] []).2.2.1 (by decide),
   (c7_no_redraw_on_same_slot plainWeatherCfg plainRssCfg .hidden .hidden
      [] 0 none [] 0 none 0 5 6 none none [] []).2.2.2 rfl (by decide) rfl⟩

/-- C8 counterexample: two Rss.stats ticks at the same now = 100 with the
same duration 10 and the same three-element item list compute different
active indices (1 versus 0) because the stored per-instance offset
differs (0 versus 1); the Rss index is therefore not a function of
wall-clock time, duration and item count alone. -/
theorem c8_rss_index_offset_dependent :
    (rssTick plainRssCfg (.active ["a", "b", "c"] (-1) none 0) 100
        ["a", "b", "c"]).index = some 1 ∧
    (rssTick plainRssCfg (.active ["a", "b", "c"] (-1) none 1) 100
        ["a", "b", "c"]).index = some 0 :=
  ⟨rfl, rfl⟩

/-- C8 amended: the Weather slot index is a deterministic, restart-safe
function of wall-clock time, the configured duration and the item count
alone: whatever state earlier ticks accumulated and whatever the oracles
return, two Weather ticks at the same now with the same configured
duration agree on any computed index, which always equals
activeIndex now duration (length of IMAGES_LIST).  The Rss index by
contrast also depends on the stored offset, see the counterexample. -/
theorem c8_weather_index_deterministic (cfg1 cfg2 : WeatherConfig)
    (s1 s2 : WeatherState) (now : Nat) (o1 o2 : Option Image)
    (i1 i2 : Nat) (hd : cfg1.duration = cfg2.duration)
    (h1 : (weatherTick cfg1 s1 now o1).index = some i1)
    (h2 : (weatherTick cfg2 s2 now o2).index = some i2) :
    i1 = i2 ∧ i1 = activeIndex now cfg1.duration IMAGES_LIST.length := by
  rcases weatherTick_index_cases cfg1 s1 now o1 with hc1 | hc1
  · rw [hc1] at h1
    cases h1
  rcases weatherTick_index_cases cfg2 s2 now o2 with hc2 | hc2
  · rw [hc2] at h2
    cases h2
  rw [hc1] at h1
  rw [hc2] at h2
  injection h1 with h1e
  injection h2 with h2e
  subst h1e
  subst h2e
  rw [hd]
  exact ⟨rfl, rfl⟩

/-- Witness for C8 at two different accumulated states and oracles. -/
theorem c8_weather_index_deterministic_w :
    plainWeatherCfg.duration = plainWeatherCfg.duration ∧
    (weatherTick plainWeatherCfg wStateA 1000 none).index = some 4 ∧
    (weatherTick plainWeatherCfg wStateB 1000 (some (Image.img 5))).index =
      some 4 ∧
    (4 = 4 ∧ 4 = activeIndex 1000 plainWeatherCfg.duration IMAGES_LIST.length) :=
  ⟨rfl, rfl, rfl,
   c8_weather_index_deterministic plainWeatherCfg plainWeatherCfg wStateA
     wStateB 1000 none (some (Image.img 5)) 4 4 rfl rfl rfl⟩

/-- C9: a rotation group that fails first-tick validation (display area
not shown, required key or public id missing, or zero configured feeds)
enters the hidden state, and the hidden state is terminal: every later
tick returns immediately with no fetch, no draw, no index computation and
no state change, so validation is never retried. -/
theorem c9_disabled_group_terminal (wc : WeatherConfig) (rc : RssConfig)
    (now : Nat) (o : Option Image) (reb : List String)
    (hw : wc.showGraph = false ∨ wc.key = "" ∨ wc.publicid = "")
    (hr : rc.showText = false ∨ rc.feedCount = 0) :
    weatherTick wc .empty now o = ⟨.hidden, [], false, none, false⟩ ∧
    weatherTick wc .hidden now o = ⟨.hidden, [], false, none, false⟩ ∧
    rssTick rc .empty now reb = ⟨.hidden, [], none⟩ ∧
    rssTick rc .hidden now reb = ⟨.hidden, [], none⟩ := by
  refine ⟨?_, rfl, ?_, rfl⟩
  · have hb : (!wc.showGraph || wc.key == "" || wc.publicid == "") = true := by
      rcases hw with h | h | h <;> simp [h]
    simp [weatherTick, hb]
  · have hb : (!rc.showText || rc.feedCount == 0) = true := by
      rcases hr with h | h <;> simp [h]
    simp [rssTick, hb]

/-- Witness for C9 at concrete invalid configurations. -/
theorem c9_disabled_group_terminal_w :
    (badWeatherCfg.showGraph = false ∨ badWeatherCfg.key = "" ∨
      badWeatherCfg.publicid = "") ∧
    (badRssCfg.showText = false ∨ badRssCfg.feedCount = 0) ∧
    (weatherTick badWeatherCfg .empty 50 none =
        ⟨.hidden, [], false, none, false⟩ ∧
     weatherTick badWeatherCfg .hidden 50 none =
        ⟨.hidden, [], false, none, false⟩ ∧
     rssTick badRssCfg .empty 50 [] = ⟨.hidden, [], none⟩ ∧
     rssTick badRssCfg .hidden 50 [] = ⟨.hidden, [], none⟩) :=
  ⟨Or.inl rfl, Or.inr rfl,
   c9_disabled_group_terminal badWeatherCfg badRssCfg 50 none []
     (Or.inl rfl) (Or.inr rfl)⟩

end TuringScreen
